import Mathlib

/-!
Shallow embedding of `src/ztp_implementation_2_10_2025.py`, the ZTP network
configuration module: the address validation helpers, `DHCPConfig`,
`VLANConfig`, `NetworkConfig` (validation and `from_json` construction),
the device-target abstraction and the `deploy_configuration` orchestrator,
together with theorems settling the specification's claims.

Python standard-library calls made by the source (`str.split`,
`str.replace`, `int(_, 16)`, `ipaddress.ip_address`, `ipaddress.ip_network`)
are modelled by executable Lean functions that follow the CPython
implementations of those routines.  Exceptions (`ValueError`) are modelled
with `Except`; the `try/except` blocks of the source become `match`es on the
`Except` value.
-/

namespace ZTP

/-- ASCII decimal digit test.  CPython's `ipaddress` octet parser requires
`octet_str.isascii() and octet_str.isdigit()`, i.e. ASCII digits only. -/
def isAsciiDigit (c : Char) : Bool := decide ('0' ≤ c ∧ c ≤ '9')

/-- Hexadecimal digit test: the digits accepted by CPython `int(_, 16)` and
by the `ipaddress` hextet parser. -/
def isHexDigitChar (c : Char) : Bool :=
  isAsciiDigit c || decide ('a' ≤ c ∧ c ≤ 'f') || decide ('A' ≤ c ∧ c ≤ 'F')

/-- Numeric value of a decimal digit string (no validity check; callers
check `isAsciiDigit` first). -/
def decValue (l : List Char) : Nat :=
  l.foldl (fun a c => a * 10 + (c.toNat - '0'.toNat)) 0

/-- Numeric value of one hexadecimal digit. -/
def hexDigitVal (c : Char) : Nat :=
  if isAsciiDigit c then c.toNat - '0'.toNat
  else if decide ('a' ≤ c ∧ c ≤ 'f') then c.toNat - 'a'.toNat + 10
  else c.toNat - 'A'.toNat + 10

/-- Model of Python `s.split(sep)` for a single-character separator:
splits at every occurrence, keeping empty fields (`"".split(':') == ['']`,
`"::".split(':') == ['', '', '']`). -/
def splitOnChar (sep : Char) : List Char → List (List Char)
  | [] => [[]]
  | c :: rest =>
    if c = sep then [] :: splitOnChar sep rest
    else
      match splitOnChar sep rest with
      | [] => [[c]]
      | g :: gs => (c :: g) :: gs

/-- Characters stripped by CPython `int()` around a numeric literal
(Unicode whitespace; the ones relevant to ASCII-ish inputs). -/
def isPySpace (c : Char) : Bool :=
  c = ' ' || c = '\t' || c = '\n' || c = '\r' || c = '\x0b' || c = '\x0c' ||
  c = '\x85' || c = '\xa0'

/-- Tail of a CPython integer literal after its first digit: further digits,
with single underscores allowed only between digits. -/
def hexTail : List Char → Bool
  | [] => true
  | ['_'] => false
  | '_' :: c :: rest => isHexDigitChar c && hexTail rest
  | c :: rest => isHexDigitChar c && hexTail rest

/-- A nonempty run of hex digits with single underscores between digits
(the digit part of a CPython base-16 literal). -/
def hexRun : List Char → Bool
  | [] => false
  | c :: rest => isHexDigitChar c && hexTail rest

/-- Model of CPython `int(s, 16)` succeeding: optional surrounding
whitespace, optional sign, optional `0x`/`0X` (an underscore may follow the
base marker), then hex digits with single underscores between digits. -/
def pyIntHex16Ok (l : List Char) : Bool :=
  let l1 := l.dropWhile isPySpace
  let l2 := (l1.reverse.dropWhile isPySpace).reverse
  let l3 := match l2 with
    | '+' :: r => r
    | '-' :: r => r
    | r => r
  match l3 with
  | '0' :: x :: rest =>
    if x = 'x' || x = 'X' then
      match rest with
      | '_' :: r => hexRun r
      | r => hexRun r
    else hexRun ('0' :: x :: rest)
  | r => hexRun r

/-- Model of CPython `ipaddress` `_parse_octet` accepting an IPv4 octet
string: 1-3 ASCII digits, no leading zero (unless the octet is `0`),
value at most 255. -/
def isValidOctet (l : List Char) : Bool :=
  !l.isEmpty && decide (l.length ≤ 3) && l.all isAsciiDigit &&
  (match l with
   | '0' :: _ :: _ => false
   | _ => true) &&
  decide (decValue l ≤ 255)

/-- Model of CPython `IPv4Address(s)` succeeding: exactly four
dot-separated valid octets. -/
def isValidIPv4 (l : List Char) : Bool :=
  match splitOnChar '.' l with
  | [a, b, c, d] => isValidOctet a && isValidOctet b && isValidOctet c && isValidOctet d
  | _ => false

/-- Numeric (32-bit) value of a valid IPv4 address string. -/
def ipv4Value (l : List Char) : Nat :=
  match splitOnChar '.' l with
  | [a, b, c, d] => ((decValue a * 256 + decValue b) * 256 + decValue c) * 256 + decValue d
  | _ => 0

/-- Model of CPython `ipaddress` `_parse_hextet` accepting an IPv6 hextet:
1-4 hex digits. -/
def isHextetStr (l : List Char) : Bool :=
  !l.isEmpty && decide (l.length ≤ 4) && l.all isHexDigitChar

/-- Numeric value of a hextet string. -/
def hextetValue (l : List Char) : Nat :=
  l.foldl (fun a c => a * 16 + hexDigitVal c) 0

/-- Hextet parse as an `Option`. -/
def parseHextetOpt (l : List Char) : Option Nat :=
  if isHextetStr l then some (hextetValue l) else none

/-- Fold a list of hextet strings into a big-endian number, failing if any
hextet is invalid (the accumulation loops of `_ip_int_from_string`). -/
def foldHextets (parts : List (List Char)) : Option Nat :=
  parts.foldl
    (fun acc p =>
      match acc, parseHextetOpt p with
      | some a, some v => some (a * 65536 + v)
      | _, _ => none)
    (some 0)

/-- Hex digit characters of a number (used for the two synthetic hextets an
embedded IPv4 suffix is replaced by in `_ip_int_from_string`). -/
def natHexChars (n : Nat) : List Char := Nat.toDigits 16 n

/-- Indices of empty fields in the interior of the part list: the candidate
positions of a `::` marker in `_ip_int_from_string`. -/
def interiorEmpty (parts : List (List Char)) : List Nat :=
  (List.range parts.length).filter
    (fun i => decide (1 ≤ i) && decide (i + 1 < parts.length) && (parts.getD i []).isEmpty)

/-- Model of CPython `IPv6Address._ip_int_from_string` (no scope id):
split on `:`, at least 3 and at most 9 parts after replacing a trailing
embedded IPv4 address by two hextets, at most one `::` compression, a
leading/trailing single `:` only as part of `::`, every remaining part a
valid hextet.  Returns the 128-bit value on success. -/
def parseIPv6NoZone (l : List Char) : Option Nat :=
  let parts0 := splitOnChar ':' l
  if parts0.length < 3 then none
  else
    let expanded : Option (List (List Char)) :=
      match parts0.getLast? with
      | some lastp =>
        if lastp.contains '.' then
          if isValidIPv4 lastp then
            some (parts0.dropLast ++
              [natHexChars (ipv4Value lastp / 65536), natHexChars (ipv4Value lastp % 65536)])
          else none
        else some parts0
      | none => none
    match expanded with
    | none => none
    | some parts =>
      let n := parts.length
      if n > 9 then none
      else
        match interiorEmpty parts with
        | [] =>
          if n ≠ 8 then none
          else if (parts.headD ['!']).isEmpty then none
          else if (parts.getLastD ['!']).isEmpty then none
          else foldHextets parts
        | [i] =>
          if (parts.headD ['!']).isEmpty && i ≠ 1 then none
          else if (parts.getLastD ['!']).isEmpty && (n - i - 1) ≠ 1 then none
          else
            let hi := if (parts.headD ['!']).isEmpty then 0 else i
            let lo := if (parts.getLastD ['!']).isEmpty then 0 else n - i - 1
            let skipped := 8 - (hi + lo)
            if skipped < 1 then none
            else
              match foldHextets (parts.take hi), foldHextets (parts.drop (n - lo)) with
              | some a, some b => some (a * 2 ^ (16 * (skipped + lo)) + b)
              | _, _ => none
        | _ => none

/-- Model of CPython `IPv6Address(s)` succeeding, including an optional
scope id: `addr%zone` with a nonempty zone containing no further `%`. -/
def parseIPv6 (l : List Char) : Option Nat :=
  match splitOnChar '%' l with
  | [addr] => parseIPv6NoZone addr
  | [addr, zone] => if zone.isEmpty then none else parseIPv6NoZone addr
  | _ => none

/-- Model of Python `ipaddress.ip_address(s)` succeeding (source uses it on
gateway, reservation and DNS strings; a failure raises `ValueError`). -/
def is_valid_ip (s : String) : Bool :=
  isValidIPv4 s.data || (parseIPv6 s.data).isSome

/-- `some p` when `v`, as a `width`-bit value, is `p` one-bits followed by
zero-bits (CPython `_prefix_from_ip_int`). -/
def onesThenZeros (v : Nat) (width : Nat) : Option Nat :=
  (List.range (width + 1)).find? (fun p => decide (v = 2 ^ width - 2 ^ (width - p)))

/-- Mask-bit count from a dotted-quad netmask or hostmask string (CPython
`IPv4Network._prefix_from_ip_string`). -/
def v4MaskFromAddr (l : List Char) : Option Nat :=
  if isValidIPv4 l then
    match onesThenZeros (ipv4Value l) 32 with
    | some p => some p
    | none => onesThenZeros (2 ^ 32 - 1 - ipv4Value l) 32
  else none

/-- Mask-bit count of the part after `/` for an IPv4 network: a decimal
string at most 32, otherwise a dotted netmask/hostmask
(CPython `IPv4Network._make_netmask`). -/
def v4MaskBits (l : List Char) : Option Nat :=
  if !l.isEmpty && l.all isAsciiDigit then
    if decide (decValue l ≤ 32) then some (decValue l) else v4MaskFromAddr l
  else v4MaskFromAddr l

/-- Mask-bit count of the part after `/` for an IPv6 network: a decimal
string at most 128 (CPython `IPv6Network._make_netmask`). -/
def v6MaskBits (l : List Char) : Option Nat :=
  if !l.isEmpty && l.all isAsciiDigit && decide (decValue l ≤ 128) then
    some (decValue l)
  else none

/-- Model of `ipaddress.ip_network(s)` (strict, the source's default)
succeeding as an IPv4 network: address optionally followed by `/mask`, with
all host bits zero. -/
def ipNetworkV4Ok (l : List Char) : Bool :=
  match splitOnChar '/' l with
  | [addr] => isValidIPv4 addr
  | [addr, mask] =>
    isValidIPv4 addr &&
    (match v4MaskBits mask with
     | some p => decide (ipv4Value addr % 2 ^ (32 - p) = 0)
     | none => false)
  | _ => false

/-- Model of `ipaddress.ip_network(s)` (strict) succeeding as an IPv6
network. -/
def ipNetworkV6Ok (l : List Char) : Bool :=
  match splitOnChar '/' l with
  | [addr] => (parseIPv6 addr).isSome
  | [addr, mask] =>
    (match parseIPv6 addr, v6MaskBits mask with
     | some v, some p => decide (v % 2 ^ (128 - p) = 0)
     | _, _ => false)
  | _ => false

/-- Model of Python `ipaddress.ip_network(s)` (strict) succeeding (source
uses it on subnet strings; a failure raises `ValueError`). -/
def is_valid_cidr (s : String) : Bool :=
  ipNetworkV4Ok s.data || ipNetworkV6Ok s.data

/-- Translation of `DHCPConfig._is_valid_mac` (source lines 65-82): the MAC
string must split on `:` into exactly six fields and, with the colons
removed, parse under `int(_, 16)`. -/
def _is_valid_mac (mac : String) : Bool :=
  if (splitOnChar ':' mac.data).length ≠ 6 then false
  else pyIntHex16Ok (mac.data.filter (fun c => decide (c ≠ ':')))

/-- Modelled from the spec: `is_valid_mac(s)` is true iff `s` splits into
exactly six colon-separated groups, each group being exactly two
hexadecimal digits.  Stated for comparison with the source's
`_is_valid_mac`. -/
def spec_is_valid_mac (mac : String) : Bool :=
  let groups := splitOnChar ':' mac.data
  decide (groups.length = 6) &&
  groups.all (fun g => decide (g.length = 2) && g.all isHexDigitChar)

/-- Firewall rules are opaque key-value records, passed through without
validation by the source. -/
abbrev FirewallRule := List (String × String)

/-- Translation of the `DHCPConfig` dataclass (source lines 28-40).  The
reservations dict (MAC → IP, insertion ordered) is modelled as an
association list. -/
structure DHCPConfig where
  reservations : List (String × String)
  subnet : String
  gateway : String
  deriving DecidableEq

/-- The reservation loop inside `DHCPConfig.validate` (source lines 55-60):
an invalid MAC returns `False`; `ipaddress.ip_address(ip)` raises
`ValueError` on an invalid IP. -/
def reservationsLoop : List (String × String) → Except String Bool
  | [] => Except.ok true
  | (mac, ip) :: rest =>
    if !_is_valid_mac mac then Except.ok false
    else if !is_valid_ip ip then Except.error "ValueError: ip_address"
    else reservationsLoop rest

/-- The body of the `try:` block of `DHCPConfig.validate` (source lines
49-60): `ip_network(subnet)` and `ip_address(gateway)` raise `ValueError`
on invalid input, then the reservation loop runs. -/
def DHCPConfig.validateBody (c : DHCPConfig) : Except String Bool :=
  if !is_valid_cidr c.subnet then Except.error "ValueError: ip_network"
  else if !is_valid_ip c.gateway then Except.error "ValueError: ip_address"
  else reservationsLoop c.reservations

/-- Translation of `DHCPConfig.validate` (source lines 42-63): the `try:`
body's result, with a raised `ValueError` caught and converted to
`False`. -/
def DHCPConfig.validate (c : DHCPConfig) : Bool :=
  match c.validateBody with
  | Except.ok b => b
  | Except.error _ => false

/-- Translation of the `VLANConfig` dataclass (source lines 84-96); the id
is a Python integer. -/
structure VLANConfig where
  id : Int
  name : String
  subnet : String
  deriving DecidableEq

/-- Translation of `VLANConfig.validate` (source lines 98-117): id within
`1 <= id <= 4094`, then `ip_network(subnet)` (whose `ValueError` is caught
and converted to `False`). -/
def VLANConfig.validate (v : VLANConfig) : Bool :=
  if ¬(1 ≤ v.id ∧ v.id ≤ 4094) then false
  else is_valid_cidr v.subnet

/-- Translation of the `NetworkConfig` class fields (source lines 129-133). -/
structure NetworkConfig where
  dhcp : Option DHCPConfig
  vlans : List VLANConfig
  dns_servers : List String
  firewall_rules : List FirewallRule
  deriving DecidableEq

/-- The VLAN loop of `NetworkConfig.validate` (source lines 154-156):
returns `False` at the first VLAN that fails its own validation. -/
def vlanLoop : List VLANConfig → Bool
  | [] => true
  | v :: rest => if v.validate then vlanLoop rest else false

/-- The DNS loop of `NetworkConfig.validate` (source lines 165-166): the
first invalid server raises `ValueError`, which the surrounding `except`
converts to `False`. -/
def dnsLoop : List String → Bool
  | [] => true
  | d :: rest => if is_valid_ip d then dnsLoop rest else false

/-- The duplicate-id check of `NetworkConfig.validate` (source lines
158-162): the check passes when `len(vlan_ids) == len(set(vlan_ids))`;
`set` cardinality is modelled by `List.dedup` length. -/
def dupIdsOk (vlans : List VLANConfig) : Bool :=
  (vlans.map (fun v => v.id)).length == ((vlans.map (fun v => v.id)).dedup).length

/-- `NetworkConfig.validate` after the DHCP check (source lines 153-168). -/
def NetworkConfig.validateRest (c : NetworkConfig) : Bool :=
  if vlanLoop c.vlans then
    if dupIdsOk c.vlans then dnsLoop c.dns_servers
    else false
  else false

/-- Translation of `NetworkConfig.validate` (source lines 135-171):
`if self.dhcp and not self.dhcp.validate(): return False`, then the VLAN
loop, the duplicate-id check and the DNS loop. -/
def NetworkConfig.validate (c : NetworkConfig) : Bool :=
  match c.dhcp with
  | some d => if d.validate then c.validateRest else false
  | none => c.validateRest

/-- The raw input mapping taken by `NetworkConfig.from_json`: each key of
the JSON schema is optional (`'dhcp' in config_data`,
`config_data.get('dns_servers', [])`, ...).  Python's `**`-unpacking of the
nested objects enforces exactly the dataclass fields, which the typed
fields model. -/
structure RawConfig where
  dhcp : Option DHCPConfig
  vlans : Option (List VLANConfig)
  dns_servers : Option (List String)
  firewall_rules : Option (List FirewallRule)
  deriving DecidableEq

/-- The `config` object `from_json` assembles before validating (source
lines 187-199): absent keys default to `None`/`[]` as in `__init__`. -/
def builtConfig (config_data : RawConfig) : NetworkConfig :=
  ⟨config_data.dhcp, config_data.vlans.getD [], config_data.dns_servers.getD [],
    config_data.firewall_rules.getD []⟩

/-- Translation of `NetworkConfig.from_json` (source lines 173-204): build
the config, then `raise ValueError("Invalid configuration data")` when
`validate()` is false. -/
def NetworkConfig.from_json (config_data : RawConfig) : Except String NetworkConfig :=
  if (builtConfig config_data).validate then Except.ok (builtConfig config_data)
  else Except.error "Invalid configuration data"

/-- Outcome of one `deploy_config` call: a returned boolean, or a raised
fault. -/
inductive ApplyOutcome where
  | ok : Bool → ApplyOutcome
  | exn : String → ApplyOutcome
  deriving DecidableEq

/-- Translation of the abstract `NetworkDevice` base class (source lines
206-227): an identity plus an arbitrary implementation of the abstract
`deploy_config` capability (which may return a boolean or raise). -/
structure NetworkDevice where
  hostname : String
  ip : String
  deploy_config : NetworkConfig → ApplyOutcome

/-- Translation of `Router.deploy_config` (source lines 229-245): logs and
always returns `True`. -/
def Router (hostname ip : String) : NetworkDevice :=
  ⟨hostname, ip, fun _ => ApplyOutcome.ok true⟩

/-- Translation of `Switch.deploy_config` (source lines 247-260): logs each
VLAN and always returns `True`. -/
def Switch (hostname ip : String) : NetworkDevice :=
  ⟨hostname, ip, fun _ => ApplyOutcome.ok true⟩

/-- The device loop of `deploy_configuration` (source lines 294-303),
threading the `success` flag: a `False` return or a raised fault sets the
flag and the loop continues with the remaining devices. -/
def deployLoop (config : NetworkConfig) : List NetworkDevice → Bool → Bool
  | [], success => success
  | d :: rest, success =>
    match d.deploy_config config with
    | ApplyOutcome.ok true => deployLoop config rest success
    | ApplyOutcome.ok false => deployLoop config rest false
    | ApplyOutcome.exn _ => deployLoop config rest false

/-- Translation of `deploy_configuration` (source lines 283-303). -/
def deploy_configuration (config : NetworkConfig) (devices : List NetworkDevice) : Bool :=
  deployLoop config devices true

/-- Instrumentation of the device loop: the outcome produced by each
device's `deploy_config` call, in the order the loop visits the devices. -/
def deployTrace (config : NetworkConfig) : List NetworkDevice → List ApplyOutcome
  | [] => []
  | d :: rest => d.deploy_config config :: deployTrace config rest

/-- Names for the individual checks performed by `NetworkConfig.validate`,
in source order: the DHCP block, the i-th VLAN, the duplicate-id
comparison, the i-th DNS server. -/
inductive Check where
  | dhcp : Check
  | vlan : Nat → Check
  | dup : Check
  | dns : Nat → Check
  deriving DecidableEq

/-- The per-VLAN checks, labelled from index `i`, each paired with its
result. -/
def vlanChecks (i : Nat) : List VLANConfig → List (Check × Bool)
  | [] => []
  | v :: rest => (Check.vlan i, v.validate) :: vlanChecks (i + 1) rest

/-- The per-DNS-server checks, labelled from index `i`, each paired with
its result. -/
def dnsChecks (i : Nat) : List String → List (Check × Bool)
  | [] => []
  | d :: rest => (Check.dns i, is_valid_ip d) :: dnsChecks (i + 1) rest

/-- All checks of `NetworkConfig.validate` after the DHCP check, in source
order, each paired with its result. -/
def restChecks (c : NetworkConfig) : List (Check × Bool) :=
  vlanChecks 0 c.vlans ++ (Check.dup, dupIdsOk c.vlans) :: dnsChecks 0 c.dns_servers

/-- All checks of `NetworkConfig.validate` in source order, each paired
with its result: DHCP (when present), each VLAN in sequence order, the
duplicate-id comparison, each DNS server. -/
def fullChecks (c : NetworkConfig) : List (Check × Bool) :=
  (match c.dhcp with
   | some d => [(Check.dhcp, d.validate)]
   | none => []) ++ restChecks c

/-- The checks reached under fail-fast evaluation: every check up to and
including the first failing one. -/
def takeToFirstFail : List (Check × Bool) → List (Check × Bool)
  | [] => []
  | (k, b) :: rest => if b then (k, b) :: takeToFirstFail rest else [(k, false)]

/-- Instrumentation of the VLAN loop: the overall result together with the
checks the loop actually evaluates. -/
def vlanTr (i : Nat) : List VLANConfig → Bool × List (Check × Bool)
  | [] => (true, [])
  | v :: rest =>
    if v.validate then
      ((vlanTr (i + 1) rest).1, (Check.vlan i, true) :: (vlanTr (i + 1) rest).2)
    else (false, [(Check.vlan i, false)])

/-- Instrumentation of the DNS loop: the overall result together with the
checks the loop actually evaluates. -/
def dnsTr (i : Nat) : List String → Bool × List (Check × Bool)
  | [] => (true, [])
  | d :: rest =>
    if is_valid_ip d then
      ((dnsTr (i + 1) rest).1, (Check.dns i, true) :: (dnsTr (i + 1) rest).2)
    else (false, [(Check.dns i, false)])

/-- Instrumentation of `NetworkConfig.validate` after the DHCP check: the
result together with the checks actually evaluated, in evaluation order. -/
def validateTraceRest (c : NetworkConfig) : Bool × List (Check × Bool) :=
  if (vlanTr 0 c.vlans).1 then
    if dupIdsOk c.vlans then
      ((dnsTr 0 c.dns_servers).1,
        (vlanTr 0 c.vlans).2 ++ (Check.dup, true) :: (dnsTr 0 c.dns_servers).2)
    else (false, (vlanTr 0 c.vlans).2 ++ [(Check.dup, false)])
  else (false, (vlanTr 0 c.vlans).2)

/-- Instrumentation of `NetworkConfig.validate`: its result together with
the checks it actually evaluates, in evaluation order. -/
def validateTrace (c : NetworkConfig) : Bool × List (Check × Bool) :=
  match c.dhcp with
  | some d =>
    if d.validate then
      ((validateTraceRest c).1, (Check.dhcp, true) :: (validateTraceRest c).2)
    else (false, [(Check.dhcp, false)])
  | none => validateTraceRest c

/-- State-threaded VLAN loop: the loop body of `NetworkConfig.validate`
reads the object but assigns none of its fields, so the state is passed
through unchanged. -/
def vlanLoopSt : List VLANConfig → NetworkConfig → Bool × NetworkConfig
  | [], s => (true, s)
  | v :: rest, s => if v.validate then vlanLoopSt rest s else (false, s)

/-- State-threaded DNS loop. -/
def dnsLoopSt : List String → NetworkConfig → Bool × NetworkConfig
  | [], s => (true, s)
  | d :: rest, s => if is_valid_ip d then dnsLoopSt rest s else (false, s)

/-- State-threaded version of `NetworkConfig.validate` after the DHCP
check, making the method's (absent) mutation of `self` explicit: every
statement receives the current object state and returns the state it
leaves behind. -/
def validateRestSt (c : NetworkConfig) : Bool × NetworkConfig :=
  match vlanLoopSt c.vlans c with
  | (true, s1) =>
    if dupIdsOk s1.vlans then dnsLoopSt s1.dns_servers s1
    else (false, s1)
  | (false, s1) => (false, s1)

/-- State-threaded version of `NetworkConfig.validate`: the direct
translation of the method over an explicit `self` state. -/
def NetworkConfig.validateSt (c : NetworkConfig) : Bool × NetworkConfig :=
  match c.dhcp with
  | some d => if d.validate then validateRestSt c else (false, c)
  | none => validateRestSt c

/-- The labelled VLAN check list agrees with the source's VLAN loop. -/
theorem vlanChecks_all (i : Nat) (vs : List VLANConfig) :
    (vlanChecks i vs).all (fun p => p.2) = vlanLoop vs := by
  induction vs generalizing i with
  | nil => rfl
  | cons v rest ih =>
    simp only [vlanChecks, vlanLoop, List.all_cons]
    cases h : v.validate <;> simp [ih]

/-- The labelled DNS check list agrees with the source's DNS loop. -/
theorem dnsChecks_all (i : Nat) (ds : List String) :
    (dnsChecks i ds).all (fun p => p.2) = dnsLoop ds := by
  induction ds generalizing i with
  | nil => rfl
  | cons d rest ih =>
    simp only [dnsChecks, dnsLoop, List.all_cons]
    cases h : is_valid_ip d <;> simp [h, ih]

/-- Fail-fast truncation distributes over concatenation. -/
theorem takeToFirstFail_append (l1 l2 : List (Check × Bool)) :
    takeToFirstFail (l1 ++ l2) =
      if l1.all (fun p => p.2) then l1 ++ takeToFirstFail l2 else takeToFirstFail l1 := by
  induction l1 with
  | nil => simp
  | cons p rest ih =>
    obtain ⟨k, b⟩ := p
    cases b
    · simp [takeToFirstFail]
    · cases h : rest.all (fun p => p.2) <;> simp [takeToFirstFail, ih, h]

/-- A check list that passes entirely is not truncated. -/
theorem takeToFirstFail_of_all (l : List (Check × Bool))
    (h : l.all (fun p => p.2) = true) : takeToFirstFail l = l := by
  induction l with
  | nil => rfl
  | cons p rest ih =>
    obtain ⟨k, b⟩ := p
    simp only [List.all_cons, Bool.and_eq_true] at h
    simp [takeToFirstFail, h.1, ih h.2]

/-- The instrumented VLAN loop computes the loop's result and evaluates
exactly the checks up to the first failure. -/
theorem vlanTr_spec (i : Nat) (vs : List VLANConfig) :
    vlanTr i vs = (vlanLoop vs, takeToFirstFail (vlanChecks i vs)) := by
  induction vs generalizing i with
  | nil => rfl
  | cons v rest ih =>
    simp only [vlanTr, vlanLoop, vlanChecks, takeToFirstFail]
    cases h : v.validate <;> simp [h, ih]

/-- The instrumented DNS loop computes the loop's result and evaluates
exactly the checks up to the first failure. -/
theorem dnsTr_spec (i : Nat) (ds : List String) :
    dnsTr i ds = (dnsLoop ds, takeToFirstFail (dnsChecks i ds)) := by
  induction ds generalizing i with
  | nil => rfl
  | cons d rest ih =>
    simp only [dnsTr, dnsLoop, dnsChecks, takeToFirstFail]
    cases h : is_valid_ip d <;> simp [h, ih]

/-- The checks after the DHCP one: result and evaluated prefix. -/
theorem validateTraceRest_spec (c : NetworkConfig) :
    validateTraceRest c =
      ((restChecks c).all (fun p => p.2), takeToFirstFail (restChecks c)) := by
  have hv := vlanChecks_all 0 c.vlans
  have hd := dnsChecks_all 0 c.dns_servers
  cases h1 : vlanLoop c.vlans
  · simp [validateTraceRest, vlanTr_spec, restChecks, takeToFirstFail_append,
      List.all_append, hv, h1]
  · have hTv : takeToFirstFail (vlanChecks 0 c.vlans) = vlanChecks 0 c.vlans :=
      takeToFirstFail_of_all _ (by rw [hv, h1])
    cases h2 : dupIdsOk c.vlans <;>
      simp [validateTraceRest, vlanTr_spec, dnsTr_spec, restChecks,
        takeToFirstFail_append, takeToFirstFail, List.all_append, List.all_cons,
        hv, hd, h1, h2, hTv]

/-- `validateRest` agrees with conjunction of the checks after DHCP. -/
theorem validateRest_all (c : NetworkConfig) :
    c.validateRest = (restChecks c).all (fun p => p.2) := by
  simp only [NetworkConfig.validateRest, restChecks, List.all_append, List.all_cons,
    vlanChecks_all, dnsChecks_all]
  cases h1 : vlanLoop c.vlans <;> cases h2 : dupIdsOk c.vlans <;> simp [h1, h2]

/-- `NetworkConfig.validate` agrees with the conjunction of its ordered
check list. -/
theorem validate_all (c : NetworkConfig) :
    NetworkConfig.validate c = (fullChecks c).all (fun p => p.2) := by
  cases hdh : c.dhcp with
  | none => simp [NetworkConfig.validate, fullChecks, hdh, validateRest_all]
  | some d =>
    cases h : d.validate <;>
      simp [NetworkConfig.validate, fullChecks, hdh, h, validateRest_all, List.all_append]

/-- The source's count comparison detects exactly duplicate ids. -/
theorem dupIdsOk_iff (vs : List VLANConfig) :
    dupIdsOk vs = true ↔ (vs.map (fun v => v.id)).Nodup := by
  unfold dupIdsOk
  constructor
  · intro h
    have hlen : (vs.map (fun v => v.id)).length = ((vs.map (fun v => v.id)).dedup).length :=
      eq_of_beq h
    have hsub := List.dedup_sublist (vs.map (fun v => v.id))
    have heq := hsub.eq_of_length hlen.symm
    rw [← heq]
    exact List.nodup_dedup _
  · intro h
    have heq : ((vs.map (fun v => v.id)).dedup) = vs.map (fun v => v.id) :=
      List.dedup_eq_self.mpr h
    simp [heq]

/-- The state-threaded VLAN loop leaves the object unchanged. -/
theorem vlanLoopSt_spec (vs : List VLANConfig) (s : NetworkConfig) :
    vlanLoopSt vs s = (vlanLoop vs, s) := by
  induction vs with
  | nil => rfl
  | cons v rest ih =>
    cases h : v.validate <;> simp [vlanLoopSt, vlanLoop, h, ih]

/-- The state-threaded DNS loop leaves the object unchanged. -/
theorem dnsLoopSt_spec (ds : List String) (s : NetworkConfig) :
    dnsLoopSt ds s = (dnsLoop ds, s) := by
  induction ds with
  | nil => rfl
  | cons d rest ih =>
    cases h : is_valid_ip d <;> simp [dnsLoopSt, dnsLoop, h, ih]

/-- The state-threaded validation computes the same boolean as the plain
translation and returns the object unchanged. -/
theorem validateSt_eq (c : NetworkConfig) : c.validateSt = (c.validate, c) := by
  cases hdh : c.dhcp with
  | none =>
    cases h1 : vlanLoop c.vlans <;> cases h2 : dupIdsOk c.vlans <;>
      simp [NetworkConfig.validateSt, NetworkConfig.validate, validateRestSt,
        NetworkConfig.validateRest, vlanLoopSt_spec, dnsLoopSt_spec, hdh, h1, h2]
  | some d =>
    cases hv : d.validate <;> cases h1 : vlanLoop c.vlans <;> cases h2 : dupIdsOk c.vlans <;>
      simp [NetworkConfig.validateSt, NetworkConfig.validate, validateRestSt,
        NetworkConfig.validateRest, vlanLoopSt_spec, dnsLoopSt_spec, hdh, hv, h1, h2]

/-- A reservation loop that returns `ok true` saw only valid MAC keys. -/
theorem reservationsLoop_ok_true (l : List (String × String))
    (h : reservationsLoop l = Except.ok true) :
    ∀ p ∈ l, _is_valid_mac p.1 = true := by
  induction l with
  | nil => intro p hp; cases hp
  | cons q rest ih =>
    intro p hp
    obtain ⟨mac, ip⟩ := q
    by_cases hm : _is_valid_mac mac
    · by_cases hip : is_valid_ip ip
      · simp only [reservationsLoop, hm, hip] at h
        rcases List.mem_cons.mp hp with hp1 | hp2
        · subst hp1; exact hm
        · simp only [Bool.not_true, Bool.false_eq_true, if_false, ite_false] at h
          exact ih h p hp2
      · simp [reservationsLoop, hm, hip] at h
    · simp [reservationsLoop, hm] at h

/-- The device loop threads the `success` flag as the conjunction of the
per-device outcomes. -/
theorem deployLoop_eq (config : NetworkConfig) (ds : List NetworkDevice) (s : Bool) :
    deployLoop config ds s =
      (s && ds.all (fun d => decide (d.deploy_config config = ApplyOutcome.ok true))) := by
  induction ds generalizing s with
  | nil => simp [deployLoop]
  | cons d rest ih =>
    simp only [deployLoop, List.all_cons]
    cases h : d.deploy_config config with
    | ok b => cases b <;> simp [h, ih, Bool.and_assoc]
    | exn e => simp [h, ih]

/-- The instrumented device loop records one outcome per device, in input
order. -/
theorem deployTrace_map (config : NetworkConfig) (ds : List NetworkDevice) :
    deployTrace config ds = ds.map (fun d => d.deploy_config config) := by
  induction ds with
  | nil => rfl
  | cons d rest ih => simp [deployTrace, ih]

/-- A sample valid DHCP block (schema example used by several witnesses). -/
def sampleDHCP : DHCPConfig :=
  ⟨[("aa:bb:cc:dd:ee:ff", "192.168.1.10")], "192.168.1.0/24", "192.168.1.1"⟩

/-- A valid raw schema object. -/
def sampleRaw : RawConfig :=
  ⟨some sampleDHCP, some [⟨10, "users", "10.0.10.0/24"⟩],
    some ["8.8.8.8", "1.1.1.1"], some [[("action", "allow")]]⟩

/-- The `NetworkConfig` that `from_json` builds from `sampleRaw`. -/
def sampleConfig : NetworkConfig :=
  ⟨some sampleDHCP, [⟨10, "users", "10.0.10.0/24"⟩],
    ["8.8.8.8", "1.1.1.1"], [[("action", "allow")]]⟩

/-- `sampleRaw` with one DNS entry replaced by `"999.999.999.999"`. -/
def badDnsRaw : RawConfig :=
  ⟨some sampleDHCP, some [⟨10, "users", "10.0.10.0/24"⟩],
    some ["8.8.8.8", "999.999.999.999"], some [[("action", "allow")]]⟩

/-- A config whose two VLANs are individually valid but share id 10. -/
def dupVlanConfig : NetworkConfig :=
  ⟨none, [⟨10, "dup-a", "10.0.10.0/24"⟩, ⟨10, "dup-b", "10.0.20.0/24"⟩], [], []⟩

/-- C1: the claim states that `_is_valid_mac` accepts exactly the strings
made of six colon-separated two-hex-digit groups.  The code diverges: it
only counts colon-separated fields and hex-parses the colon-stripped
remainder, so `"aa:bb:cc:dd:ee:"` — six fields, the last empty, not a MAC
address under the claim, the spec, or the function's own documentation —
is accepted.  The spec's explicit examples are also evaluated. -/
theorem mac_validation_divergence :
    _is_valid_mac "aa:bb:cc:dd:ee:" = true ∧
    spec_is_valid_mac "aa:bb:cc:dd:ee:" = false ∧
    _is_valid_mac "aa:bb:cc:dd:ee:ff" = true ∧
    spec_is_valid_mac "aa:bb:cc:dd:ee:ff" = true ∧
    _is_valid_mac "aa:bb:cc" = false ∧
    _is_valid_mac "gg:bb:cc:dd:ee:ff" = false := by
  decide

/-- C2: `deploy_configuration` invokes `deploy_config` on every target in
input order even after failures (the outcome trace has exactly one entry
per device, in input order), and the aggregate result is true iff every
target's `deploy_config` returned `True` without raising. -/
theorem deploy_configuration_full_fanout (config : NetworkConfig)
    (devices : List NetworkDevice) :
    deployTrace config devices = devices.map (fun d => d.deploy_config config) ∧
    (deploy_configuration config devices = true ↔
      ∀ d ∈ devices, d.deploy_config config = ApplyOutcome.ok true) := by
  refine ⟨deployTrace_map config devices, ?_⟩
  rw [deploy_configuration, deployLoop_eq]
  simp [List.all_eq_true]

/-- Witness for C2: deploying to a concrete two-device fleet succeeds. -/
theorem deploy_configuration_full_fanout_witness :
    deploy_configuration ⟨none, [], [], []⟩
      [Router "router1" "192.168.1.1", Switch "switch1" "192.168.1.2"] = true :=
  (deploy_configuration_full_fanout ⟨none, [], [], []⟩
    [Router "router1" "192.168.1.1", Switch "switch1" "192.168.1.2"]).2.mpr
    (by decide)

/-- C3: `from_json` never returns a config that fails validation: whenever
it returns `ok cfg`, `cfg.validate` is true. -/
theorem from_json_never_invalid (raw : RawConfig) (cfg : NetworkConfig)
    (h : NetworkConfig.from_json raw = Except.ok cfg) :
    cfg.validate = true := by
  by_cases hc : (builtConfig raw).validate = true
  · simp only [NetworkConfig.from_json, hc, if_true] at h
    cases h
    exact hc
  · simp [NetworkConfig.from_json, hc] at h

/-- Witness for C3: constructing from the valid schema object succeeds and
revalidates to true; with one DNS entry replaced by `"999.999.999.999"`,
construction fails. -/
theorem from_json_never_invalid_witness :
    NetworkConfig.validate sampleConfig = true ∧
    NetworkConfig.from_json sampleRaw = Except.ok sampleConfig ∧
    NetworkConfig.from_json badDnsRaw = Except.error "Invalid configuration data" :=
  ⟨from_json_never_invalid sampleRaw sampleConfig rfl, rfl, rfl⟩

/-- C4: `NetworkConfig.validate` runs its checks in the fixed source
order — DHCP (when present), each VLAN in sequence order, the
duplicate-id count comparison, each DNS server — with fail-fast
semantics: the result is the conjunction of the ordered check list, and
the instrumented translation evaluates exactly the checks up to and
including the first failing one. -/
theorem validate_check_order (c : NetworkConfig) :
    NetworkConfig.validate c = (fullChecks c).all (fun p => p.2) ∧
    validateTrace c = (NetworkConfig.validate c, takeToFirstFail (fullChecks c)) := by
  refine ⟨validate_all c, ?_⟩
  cases hdh : c.dhcp with
  | none =>
    simp [validateTrace, fullChecks, hdh, validateTraceRest_spec,
      NetworkConfig.validate, validateRest_all]
  | some d =>
    cases h : d.validate <;>
      simp [validateTrace, fullChecks, hdh, h, validateTraceRest_spec,
        NetworkConfig.validate, validateRest_all, takeToFirstFail]

/-- C5: a config whose VLAN ids are not pairwise distinct fails whole
validation, even when every VLAN individually validates. -/
theorem validate_duplicate_vlan_ids (c : NetworkConfig)
    (_hall : ∀ v ∈ c.vlans, v.validate = true)
    (hdup : ¬(c.vlans.map (fun v => v.id)).Nodup) :
    NetworkConfig.validate c = false := by
  have hd : dupIdsOk c.vlans = false := by
    cases h : dupIdsOk c.vlans
    · rfl
    · exact absurd ((dupIdsOk_iff c.vlans).mp h) hdup
  rw [validate_all]
  simp [fullChecks, restChecks, List.all_append, hd]

/-- Witness for C5: two individually valid VLANs sharing id 10. -/
theorem validate_duplicate_vlan_ids_witness :
    NetworkConfig.validate dupVlanConfig = false :=
  validate_duplicate_vlan_ids dupVlanConfig (by decide) (by decide)

/-- C6: `VLANConfig.validate` rejects ids 0 and 4095 regardless of the
subnet, and accepts exactly ids in `[1, 4094]` paired with a valid CIDR
subnet (so boundary ids 1 and 4094 are valid with a valid subnet). -/
theorem vlan_validate_id_range (v : VLANConfig) :
    ((v.id = 0 ∨ v.id = 4095) → v.validate = false) ∧
    (v.validate = true ↔ (1 ≤ v.id ∧ v.id ≤ 4094 ∧ is_valid_cidr v.subnet = true)) := by
  have hval : v.validate =
      if 1 ≤ v.id ∧ v.id ≤ 4094 then is_valid_cidr v.subnet else false := by
    rw [VLANConfig.validate]
    by_cases hr : (1 ≤ v.id ∧ v.id ≤ 4094) <;> simp [hr]
  constructor
  · rintro (h | h) <;> rw [hval, h] <;> norm_num
  · rw [hval]
    by_cases hr : (1 ≤ v.id ∧ v.id ≤ 4094)
    · simp [hr]
    · simp only [hr, if_false]
      constructor
      · intro h
        exact absurd h (by simp)
      · intro h
        exact absurd ⟨h.1, h.2.1⟩ hr

/-- Witness for C6: both rejected boundary ids and both accepted boundary
ids, on a valid subnet. -/
theorem vlan_validate_id_range_witness :
    VLANConfig.validate ⟨0, "v0", "10.0.0.0/8"⟩ = false ∧
    VLANConfig.validate ⟨4095, "v4095", "10.0.0.0/8"⟩ = false ∧
    VLANConfig.validate ⟨1, "v1", "10.0.0.0/8"⟩ = true ∧
    VLANConfig.validate ⟨4094, "v4094", "10.0.0.0/8"⟩ = true :=
  ⟨(vlan_validate_id_range _).1 (Or.inl rfl),
   (vlan_validate_id_range _).1 (Or.inr rfl),
   (vlan_validate_id_range _).2.mpr ⟨by decide, by decide, by decide⟩,
   (vlan_validate_id_range _).2.mpr ⟨by decide, by decide, by decide⟩⟩

/-- C7: a reservation with an invalid MAC key makes `DHCPConfig.validate`
return false, and every `ValueError` raised inside the `try:` body is
caught and converted to false — validation always returns a boolean and
never propagates the exception. -/
theorem dhcp_validate_invalid_mac_safe :
    (∀ (cfg : DHCPConfig) (mac ip : String), (mac, ip) ∈ cfg.reservations →
      _is_valid_mac mac = false → DHCPConfig.validate cfg = false) ∧
    (∀ (cfg : DHCPConfig) (e : String), cfg.validateBody = Except.error e →
      DHCPConfig.validate cfg = false) := by
  constructor
  · intro cfg mac ip hmem hmac
    have key : DHCPConfig.validate cfg = true → _is_valid_mac mac = true := by
      intro hv
      cases hb : cfg.validateBody with
      | error e => simp [DHCPConfig.validate, hb] at hv
      | ok b =>
        simp only [DHCPConfig.validate, hb] at hv
        rw [hv] at hb
        by_cases hs : is_valid_cidr cfg.subnet
        · by_cases hg : is_valid_ip cfg.gateway
          · simp only [DHCPConfig.validateBody, hs, hg, Bool.not_true,
              Bool.false_eq_true, if_false] at hb
            exact reservationsLoop_ok_true _ hb (mac, ip) hmem
          · simp [DHCPConfig.validateBody, hs, hg] at hb
        · simp [DHCPConfig.validateBody, hs] at hb
    cases hvb : DHCPConfig.validate cfg
    · rfl
    · have := key hvb
      simp [this] at hmac
  · intro cfg e hb
    simp [DHCPConfig.validate, hb]

/-- Witness for C7: a reservation table with a malformed MAC key. -/
theorem dhcp_validate_invalid_mac_safe_witness :
    DHCPConfig.validate
      ⟨[("not-a-mac", "192.168.1.5")], "192.168.1.0/24", "192.168.1.1"⟩ = false :=
  dhcp_validate_invalid_mac_safe.1
    ⟨[("not-a-mac", "192.168.1.5")], "192.168.1.0/24", "192.168.1.1"⟩
    "not-a-mac" "192.168.1.5" (by decide) (by decide)

/-- C8: validation is pure and idempotent: the state-threaded translation
returns the object unchanged (every field untouched), and running it again
on the returned object yields the same boolean. -/
theorem validate_idempotent_pure (c : NetworkConfig) :
    (c.validateSt).2 = c ∧
    ((c.validateSt).2.validateSt).1 = (c.validateSt).1 ∧
    (c.validateSt).1 = c.validate ∧
    (c.validateSt).2.dhcp = c.dhcp ∧
    (c.validateSt).2.vlans = c.vlans ∧
    (c.validateSt).2.dns_servers = c.dns_servers ∧
    (c.validateSt).2.firewall_rules = c.firewall_rules := by
  simp [validateSt_eq]

/-- C9: deploying to an empty device list returns true (vacuous fleet-wide
success). -/
theorem deploy_configuration_empty (config : NetworkConfig) :
    deploy_configuration config [] = true := rfl

/-- C10: a config with no DHCP block, no VLANs, no DNS servers and any
firewall-rule list validates, and `from_json` of the empty mapping
succeeds with exactly that config. -/
theorem empty_config_validates :
    (∀ fw : List FirewallRule, NetworkConfig.validate ⟨none, [], [], fw⟩ = true) ∧
    NetworkConfig.from_json ⟨none, none, none, none⟩ = Except.ok ⟨none, [], [], []⟩ := by
  constructor
  · intro fw
    rfl
  · rfl

end ZTP
